import Mathlib

/-!
Verification development for the MindMosaic medical reading assistant
(WAI-TechnicalWorkshop-AgenticAI-HealthCare).

The repository's source under scrutiny is the React component
`frontend/src/components/Reader.js` (`MedicalReadingAssistant`), present in two
near-identical revisions.  We embed its reactive logic shallowly:

  - the debounced analysis effect (the gate `text.trim().length > 10`, the
    success path, the catch-all fallback object, and the reset branch),
  - the visual-adaptation application to `document.body.style`,
  - the speech-synthesis helpers (`speakText`, `stopReading`, `pauseReading`,
    `resumeReading`),
  - the render condition for the simplified-version panel, and
  - the complexity band ternary used for the score badge.

The backend analysis pipeline (ComplexityScorer, Simplifier, SafetyExtractor,
InterventionPlanner, ProfileStore) is not part of the sources; where a claim is
decided by that code we model it from the specification, and each such
definition carries a doc comment beginning with "Modelled from the spec:".

Machine floats in the JavaScript are embedded as rationals; JS strings as Lean
strings (the sources are ASCII, so UTF-16 length and character count agree on
every literal we touch).
-/

namespace MMR

/-- A JavaScript value as it lands in a `document.body.style` property: either a
string or a number (the code assigns both, e.g. `line_height: 1.5`). -/
inductive JSVal where
  | str (s : String)
  | num (q : ℚ)
deriving DecidableEq, Repr

/-- The four `document.body.style` properties the component ever touches. -/
structure BodyStyle where
  fontSize : JSVal
  lineHeight : JSVal
  backgroundColor : JSVal
  color : JSVal
deriving DecidableEq, Repr

/-- Inline styles start unset; the DOM reports them as the empty string, and the
reset branch writes the empty string back. -/
def emptyBodyStyle : BodyStyle :=
  { fontSize := .str "", lineHeight := .str "", backgroundColor := .str "", color := .str "" }

/-- One entry of `medical_terms_found`. -/
structure TermMatch where
  term : String
  definition : String
deriving DecidableEq, Repr

/-- The `visual_adaptations` object of an analysis result. -/
structure VisualAdaptations where
  font_size : String
  line_height : ℚ
  color_scheme : String
deriving DecidableEq, Repr

/-- The `audio_suggestions` object of an analysis result. -/
structure AudioSuggestions where
  should_read_aloud : Bool
  reading_speed : ℚ
  emphasize_terms : Bool
deriving DecidableEq, Repr

/-- The `user_progress` object of an analysis result. -/
structure UserProgress where
  texts_read : ℕ
  comprehension_rate : ℚ
deriving DecidableEq, Repr

/-- The analysis result object consumed by the component (shape taken from the
fallback literal and from every field access in the render code).  Fields the
backend may omit are `Option`s, mirroring the optional-chaining accesses. -/
structure AnalysisResult where
  original_text : String
  complexity_score : ℚ
  medical_terms_found : List TermMatch
  simplified_text : String
  visual_adaptations : Option VisualAdaptations
  audio_suggestions : Option AudioSuggestions
  safety_highlights : List String
  user_progress : Option UserProgress
  confidence : ℚ
  llm_enabled : Bool
  analysis_method : String
  error : Option String
deriving DecidableEq, Repr

/-- The fallback analysis object built in the `catch` block of the debounced
effect (Reader.js lines 44-57). -/
def fallbackAnalysis (text errMsg : String) : AnalysisResult :=
  { original_text := text
  , complexity_score := 0.5
  , medical_terms_found := []
  , simplified_text := text
  , visual_adaptations := some { font_size := "16px", line_height := 1.5, color_scheme := "default" }
  , audio_suggestions := some { should_read_aloud := false, reading_speed := 1.0, emphasize_terms := false }
  , safety_highlights := []
  , user_progress := some { texts_read := 0, comprehension_rate := 0.0 }
  , confidence := 0.0
  , llm_enabled := false
  , analysis_method := "Error - Rule-based fallback"
  , error := some errMsg }

/-- The user profile snapshot displayed by the component (shape taken from the
profile display section of the render code). -/
structure UserProfileView where
  dyslexia_severity : String
  texts_read : ℕ
  terms_learned : ℕ
deriving DecidableEq, Repr

/-- The component state touched by the debounced analysis effect. -/
structure UIState where
  analysis : Option AnalysisResult
  userProfile : Option UserProfileView
  body : BodyStyle
deriving DecidableEq, Repr

/-- A whitespace character as JavaScript `String.prototype.trim` sees it (the
ASCII whitespace the sources can contain). -/
def jsWhitespace (c : Char) : Bool :=
  c = ' ' || c = '\t' || c = '\n' || c = '\r'

/-- JavaScript `text.trim()`: strip whitespace from both ends. -/
def jsTrim (s : String) : String :=
  String.mk (((s.data.dropWhile jsWhitespace).reverse.dropWhile jsWhitespace).reverse)

/-- The debounce gate: `text.trim().length > 10` (Reader.js line 17). -/
def analysisGate (text : String) : Bool :=
  (jsTrim text).length > 10

/-- Outcome of the awaited `analyzeMedicalText` call: either a parsed result or
a thrown error carrying a message. -/
inductive FetchOutcome where
  | ok (r : AnalysisResult)
  | err (msg : String)
deriving DecidableEq, Repr

/-- Application of `result.visual_adaptations` to `document.body.style`
(Reader.js lines 26-34): font size and line height are always written when the
object is present; background and text color only under "high_contrast". -/
def applyVisualAdaptations (r : AnalysisResult) (st : BodyStyle) : BodyStyle :=
  match r.visual_adaptations with
  | none => st
  | some va =>
    let st1 : BodyStyle :=
      { st with fontSize := .str va.font_size, lineHeight := .num va.line_height }
    if va.color_scheme = "high_contrast" then
      { st1 with backgroundColor := .str "#f8f8f8", color := .str "#333" }
    else
      st1

/-- Result of one firing of the debounced effect: the new component state plus
whether `analyzeMedicalText` was invoked at all. -/
structure StepResult where
  ui : UIState
  requested : Bool
deriving DecidableEq, Repr

/-- One firing of the debounced effect (Reader.js lines 16-68).  When the gate
passes, the backend is called; a successful result is stored and its visual
adaptations applied, while a thrown error stores the fallback object and leaves
the styles untouched (the application code sits after the `await` in the `try`).
When the gate fails, the analysis is cleared, the four styles are reset, and no
request is issued. -/
def debounceStep (text : String) (fetch : FetchOutcome) (st : UIState) : StepResult :=
  if analysisGate text then
    match fetch with
    | .ok r =>
        { ui := { st with analysis := some r, body := applyVisualAdaptations r st.body }
        , requested := true }
    | .err m =>
        { ui := { st with analysis := some (fallbackAnalysis text m) }
        , requested := true }
  else
    { ui := { st with analysis := none, body := emptyBodyStyle }
    , requested := false }

/-- Render condition of the simplified-version panel (Reader.js line 308):
`analysis?.simplified_text && analysis.simplified_text !== text`.  A string is
truthy in JavaScript exactly when it is non-empty. -/
def showSimplifiedPanel (analysis : Option AnalysisResult) (text : String) : Bool :=
  match analysis with
  | none => false
  | some a => (a.simplified_text != "") && (a.simplified_text != text)

/-- The complexity badge color ternary (Reader.js line 219):
`score > 0.6 ? "#e74c3c" : score > 0.3 ? "#f39c12" : "#27ae60"`. -/
def complexityColor (score : ℚ) : String :=
  if score > 0.6 then "#e74c3c"
  else if score > 0.3 then "#f39c12"
  else "#27ae60"

/-- The banding the specification's words describe, for comparison with the
code: inclusive-low, exclusive-high bands at 0.3 and 0.6, so a boundary value
belongs to the band it opens. -/
def complexityColorSpecInclusiveLow (score : ℚ) : String :=
  if score < 0.3 then "#27ae60"
  else if score < 0.6 then "#f39c12"
  else "#e74c3c"

/-! ## Speech synthesis model

`window.speechSynthesis` keeps a queue of utterances; `speak` enqueues,
`cancel` discards every queued or playing utterance, `pause`/`resume` toggle
playback of the current one without touching the queue.  We record the queue as
the list of utterance texts plus the paused flag. -/

/-- State of the browser speech-synthesis engine. -/
structure SpeechState where
  queue : List String
  paused : Bool
deriving DecidableEq, Repr

/-- `window.speechSynthesis.cancel()`: drops every utterance. -/
def synthCancel (_st : SpeechState) : SpeechState :=
  { queue := [], paused := false }

/-- `window.speechSynthesis.speak(utter)`: appends the utterance to the queue. -/
def synthSpeak (u : String) (st : SpeechState) : SpeechState :=
  { st with queue := st.queue ++ [u] }

/-- `speakText` (Reader.js lines 85-110): cancels any current speech, then
speaks the new utterance. -/
def speakText (u : String) (st : SpeechState) : SpeechState :=
  synthSpeak u (synthCancel st)

/-- `stopReading` (Reader.js lines 126-130): cancels all speech. -/
def stopReading (st : SpeechState) : SpeechState :=
  synthCancel st

/-- `pauseReading` (Reader.js lines 112-117): pauses when something is
speaking. -/
def pauseReading (st : SpeechState) : SpeechState :=
  if st.queue.isEmpty then st else { st with paused := true }

/-- `resumeReading` (Reader.js lines 119-124): resumes when paused. -/
def resumeReading (st : SpeechState) : SpeechState :=
  if st.paused then { st with paused := false } else st

/-- The speech-affecting operations the component can perform. -/
inductive SpeechOp where
  | speak (u : String)
  | stop
  | pause
  | resume
deriving DecidableEq, Repr

/-- Dispatch one speech operation. -/
def speechStep (st : SpeechState) : SpeechOp → SpeechState
  | .speak u => speakText u st
  | .stop => stopReading st
  | .pause => pauseReading st
  | .resume => resumeReading st

/-- Run a sequence of speech operations. -/
def runSpeech (st : SpeechState) (ops : List SpeechOp) : SpeechState :=
  ops.foldl speechStep st

/-- The engine state before any utterance: empty queue, not paused. -/
def initialSpeechState : SpeechState :=
  { queue := [], paused := false }

/-! ## Spec-modelled backend components

The backend pipeline is not among the sources; the definitions below are
modelled from the specification and are marked as such. -/

/-- Modelled from the spec: the user-profile severity enumeration of section 3
(default severity on first contact is unknown).  The backend code holding it is
not under src/. -/
inductive Severity where
  | unknown
  | low
  | mild
  | moderate
  | severe
deriving DecidableEq, Repr

/-- Modelled from the spec: the UserProfile record of section 3 (severity
level, count of texts analyzed, cumulative known-terms set, running
comprehension estimate).  The backend code holding it is not under src/. -/
structure UserProfile where
  severity : Severity
  texts_read : ℕ
  known_terms : List String
  comprehension : ℚ
deriving DecidableEq, Repr

/-- Modelled from the spec: a fresh profile created on first contact. -/
def defaultProfile : UserProfile :=
  { severity := .unknown, texts_read := 0, known_terms := [], comprehension := 0.5 }

/-- Modelled from the spec: what a completed analysis feeds back into the
profile update — the newly surfaced terms and a comprehension signal. -/
structure AnalysisOutcome where
  terms : List String
  comprehension_signal : ℚ
deriving DecidableEq, Repr

/-- Modelled from the spec: set union of known terms with newly seen terms, no
duplicates, existing order preserved. -/
def mergeTerms (old new : List String) : List String :=
  new.foldl (fun acc t => if t ∈ acc then acc else acc ++ [t]) old

/-- Modelled from the spec: the fixed exponential-smoothing constant of the
running comprehension estimate (section 4.6 requires a documented fixed
constant; we fix 3/10). -/
def smoothingAlpha : ℚ := 3 / 10

/-- Modelled from the spec: one profile update — increment texts-analyzed by
exactly one, merge newly seen terms, exponentially smooth the comprehension
estimate. -/
def updateProfile (p : UserProfile) (o : AnalysisOutcome) : UserProfile :=
  { p with
    texts_read := p.texts_read + 1
    known_terms := mergeTerms p.known_terms o.terms
    comprehension :=
      (1 - smoothingAlpha) * p.comprehension + smoothingAlpha * o.comprehension_signal }

/-- Modelled from the spec: the ProfileStore, a keyed store of per-user
profiles (newest binding first).  The backend code holding it is not under
src/. -/
def ProfileStore : Type := List (String × UserProfile)

/-- Modelled from the spec: read a user's profile, defaulting when absent. -/
def storeGet : ProfileStore → String → UserProfile
  | [], _ => defaultProfile
  | (k, p) :: rest, uid => if uid = k then p else storeGet rest uid

/-- Modelled from the spec: whether a user already has a profile binding. -/
def storeHas : ProfileStore → String → Bool
  | [], _ => false
  | (k, _) :: rest, uid => if uid = k then true else storeHas rest uid

/-- Modelled from the spec: `get` creates a default profile on first access. -/
def storeEnsure (st : ProfileStore) (uid : String) : ProfileStore :=
  if storeHas st uid then st else (uid, defaultProfile) :: st

/-- Modelled from the spec: `update` commits one completed analysis for a
user. -/
def storeUpdate (st : ProfileStore) (uid : String) (o : AnalysisOutcome) : ProfileStore :=
  (uid, updateProfile (storeGet st uid) o) :: st

/-- Modelled from the spec: the operations the ProfileStore interface offers. -/
inductive StoreOp where
  | get (uid : String)
  | update (uid : String) (o : AnalysisOutcome)

/-- Modelled from the spec: dispatch one store operation. -/
def storeStep (st : ProfileStore) : StoreOp → ProfileStore
  | .get uid => storeEnsure st uid
  | .update uid o => storeUpdate st uid o

/-- Modelled from the spec: run a sequence of store operations. -/
def runStore (st : ProfileStore) (ops : List StoreOp) : ProfileStore :=
  ops.foldl storeStep st

/-- Number of completed-analysis updates a sequence of operations performs for
one user id. -/
def countUpdates (uid : String) : List StoreOp → ℕ
  | [] => 0
  | .get _ :: rest => countUpdates uid rest
  | .update u _ :: rest => (if u = uid then 1 else 0) + countUpdates uid rest

/-- Modelled from the spec: the ComplexityResult record of section 3 —
complexity and confidence in [0,1], ordered term matches, safety highlights.
The backend code holding it is not under src/. -/
structure ComplexityResult where
  complexity : ℚ
  confidence : ℚ
  terms : List TermMatch
  highlights : List String
deriving DecidableEq, Repr

/-- Modelled from the spec: the PresentationDirectives record of section 3 —
font size, line height, color scheme, audio flag, reading pace multiplier. -/
structure PresentationDirectives where
  font_size : String
  line_height : ℚ
  color_scheme : String
  should_read_aloud : Bool
  reading_speed : ℚ
deriving DecidableEq, Repr

/-- Modelled from the spec: how much a recorded severity lowers the complexity
thresholds of the planner (higher severity triggers interventions at lower
complexity, section 4.5). -/
def severityShift : Severity → ℚ
  | .unknown => 0
  | .low => 0
  | .mild => 1 / 10
  | .moderate => 2 / 10
  | .severe => 3 / 10

/-- Modelled from the spec: the InterventionPlanner, a deterministic mapping
from a ComplexityResult and a UserProfile to PresentationDirectives; higher
effective complexity and lower confidence select larger visual aids, audio,
high contrast, and a slower pace.  The backend code holding it is not under
src/. -/
def plan (c : ComplexityResult) (p : UserProfile) : PresentationDirectives :=
  let eff : ℚ := c.complexity + severityShift p.severity
  { font_size := if eff > 0.6 then "20px" else if eff > 0.3 then "18px" else "16px"
  , line_height := if eff > 0.6 then 2 else 1.5
  , color_scheme := if eff > 0.6 then "high_contrast" else "default"
  , should_read_aloud := (eff > 0.6) || ((c.confidence < 0.3) && (eff > 0.3))
  , reading_speed := if eff > 0.6 then 0.8 else 1 }

/-! ## Spec-modelled SafetyExtractor and rule-based Simplifier -/

/-- Whether `pat` is a prefix of `l`, over char lists. -/
def startsWithChars : List Char → List Char → Bool
  | [], _ => true
  | _ :: _, [] => false
  | p :: ps, x :: xs => p = x && startsWithChars ps xs

/-- Whether `pat` occurs contiguously somewhere in `l`, over char lists. -/
def hasSpanChars (pat : List Char) : List Char → Bool
  | [] => startsWithChars pat []
  | x :: xs => startsWithChars pat (x :: xs) || hasSpanChars pat xs

/-- Split a char list at every occurrence of the separator character. -/
def splitCharList (sep : Char) : List Char → List (List Char)
  | [] => [[]]
  | x :: xs =>
    let r := splitCharList sep xs
    if x = sep then [] :: r
    else
      match r with
      | [] => [[x]]
      | piece :: rest => (x :: piece) :: rest

/-- Modelled from the spec: the cue-phrase set of the SafetyExtractor
(dosage, frequency, warning and contraindication markers, section 4.3).  The
backend code holding it is not under src/. -/
def safetyCues : List String :=
  ["take", "tablet", "dose", "dosage", "daily", "warning", "do not", "contact", "monitor"]

/-- Modelled from the spec: a sentence is safety-critical when it matches a cue
phrase (matching is case-insensitive). -/
def isSafetyCritical (s : String) : Bool :=
  safetyCues.any (fun cue => hasSpanChars cue.data (s.data.map Char.toLower))

/-- Sentence segmentation shared by the extractor and the simplifier: split on
periods. -/
def sentencesOf (text : String) : List String :=
  (splitCharList '.' text.data).map String.mk

/-- Modelled from the spec: the SafetyExtractor — the safety-critical sentences
of the text, source order preserved.  The backend code holding it is not under
src/. -/
def safetyHighlightsOf (text : String) : List String :=
  (sentencesOf text).filter isSafetyCritical

/-- Modelled from the spec: the LexiconIndex of plain-language glosses used by
the rule-based Simplifier.  The backend code holding it is not under src/. -/
def lexicon : List (String × String) :=
  [ ("physician", "doctor")
  , ("nausea", "feeling sick to your stomach")
  , ("dizziness", "feeling dizzy")
  , ("allergic reactions", "allergic problems")
  , ("persist", "keep happening")
  , ("worsen", "get worse") ]

/-- Modelled from the spec: apply every lexicon substitution to a sentence. -/
def substituteTerms (s : String) : String :=
  lexicon.foldl (fun acc tg => acc.replace tg.1 tg.2) s

/-- Modelled from the spec: the fixed word-count threshold above which a
sentence is shortened by splitting at conjunctions (section 4.4). -/
def longSentenceWords : ℕ := 12

/-- Modelled from the spec: shorten an over-long sentence by splitting it at
"and" conjunctions. -/
def splitAtConjunctions (s : String) : String :=
  if (s.splitOn " ").length > longSentenceWords then
    String.intercalate ". " (s.splitOn " and ")
  else
    s

/-- Modelled from the spec: the per-sentence step of the rule-based Simplifier —
a sentence inside a SafetyHighlight span rounds-trips verbatim; any other
sentence gets lexicon substitutions and conjunction splitting. -/
def simplifySentence (s : String) : String :=
  if isSafetyCritical s then s
  else splitAtConjunctions (substituteTerms s)

/-- Rejoin sentences with the period separator that segmentation removed. -/
def joinSentences : List String → String
  | [] => ""
  | [s] => s
  | s :: rest => s ++ "." ++ joinSentences rest

/-- Modelled from the spec: the rule-based fallback Simplifier of section 4.4 —
split into sentences, simplify each, rejoin.  The backend code holding it is
not under src/. -/
def ruleBasedSimplify (text : String) : String :=
  joinSentences ((sentencesOf text).map simplifySentence)

/-- The span `a` occurs contiguously and verbatim inside `b`. -/
def occursIn (a b : String) : Prop :=
  ∃ s t : List Char, b.data = s ++ a.data ++ t

/-! ## Sample values used by witness statements -/

/-- The component state before any input: no analysis, no profile, unset
styles. -/
def initialUIState : UIState :=
  { analysis := none, userProfile := none, body := emptyBodyStyle }

/-- A sample adaptations object with the default color scheme. -/
def sampleAdaptationsDefault : VisualAdaptations :=
  { font_size := "16px", line_height := 1.5, color_scheme := "default" }

/-- A sample adaptations object requesting high contrast. -/
def sampleAdaptationsHC : VisualAdaptations :=
  { font_size := "18px", line_height := 1.8, color_scheme := "high_contrast" }

/-- A sample backend analysis result carrying the given adaptations. -/
def sampleResult (va : VisualAdaptations) : AnalysisResult :=
  { original_text := "t"
  , complexity_score := 0.7
  , medical_terms_found := []
  , simplified_text := "s"
  , visual_adaptations := some va
  , audio_suggestions := none
  , safety_highlights := []
  , user_progress := none
  , confidence := 0.8
  , llm_enabled := true
  , analysis_method := "llm"
  , error := none }

/-- A sample body style with every property set, to make frame preservation
visible. -/
def sampleBody : BodyStyle :=
  { fontSize := .str "12px", lineHeight := .num 2, backgroundColor := .str "white", color := .str "black" }

/-- A sample complexity result for the planner witness. -/
def sampleComplexity : ComplexityResult :=
  { complexity := 0.5, confidence := 0.5, terms := [], highlights := [] }

/-! ## Theorems -/

/-- C1 (counterexample): at a concrete accepted input, when the external
analysis call fails the result stored for the caller carries
`analysis_method = "Error - Rule-based fallback"`, not the claimed exact string
`"rule-based"`. -/
theorem c1_method_label_counterexample :
    (fallbackAnalysis "Take 2 tablets by mouth" "timeout").analysis_method ≠ "rule-based" := by
  decide

/-- C1 (amended): for every accepted input text (trimmed length over 10), when
the external analysis call fails the caller still receives a complete analysis
result whose `llm_enabled` is false, whose `analysis_method` is the rule-based
fallback label "Error - Rule-based fallback", and whose `simplified_text` is
non-empty. -/
theorem c1_fallback_result (text err : String) (st : UIState)
    (h : 10 < (jsTrim text).length) :
    ∃ r, (debounceStep text (.err err) st).ui.analysis = some r ∧
      r.llm_enabled = false ∧
      r.analysis_method = "Error - Rule-based fallback" ∧
      r.simplified_text ≠ "" := by
  refine ⟨fallbackAnalysis text err, ?_, rfl, rfl, ?_⟩
  · simp [debounceStep, analysisGate, h]
  · show text ≠ ""
    rintro rfl
    exact absurd h (by decide)

/-- C1 (witness): the amended theorem at the concrete accepted input of the
demo text's last sentence and a simulated network failure. -/
theorem c1_fallback_result_witness :
    10 < (jsTrim "Contact your physician if symptoms persist").length ∧
      ∃ r, (debounceStep "Contact your physician if symptoms persist"
              (.err "network error") initialUIState).ui.analysis = some r ∧
        r.llm_enabled = false ∧
        r.analysis_method = "Error - Rule-based fallback" ∧
        r.simplified_text ≠ "" :=
  ⟨by decide, c1_fallback_result "Contact your physician if symptoms persist"
    "network error" initialUIState (by decide)⟩

/-- C2: every input whose trimmed length is below 10 is rejected before any
request: the backend is not called, the analysis is cleared, and the displayed
user profile is untouched; moreover an analysis request is issued only for
texts whose trimmed length is at or above 10. -/
theorem c2_short_input_rejected :
    (∀ (text : String) (fetch : FetchOutcome) (st : UIState),
        (jsTrim text).length < 10 →
        (debounceStep text fetch st).requested = false ∧
        (debounceStep text fetch st).ui.analysis = none ∧
        (debounceStep text fetch st).ui.userProfile = st.userProfile) ∧
    (∀ (text : String) (fetch : FetchOutcome) (st : UIState),
        (debounceStep text fetch st).requested = true → 10 ≤ (jsTrim text).length) := by
  constructor
  · intro text fetch st h
    have hg : analysisGate text = false := by
      simp only [analysisGate, gt_iff_lt, decide_eq_false_iff_not, not_lt]
      omega
    simp [debounceStep, hg]
  · intro text fetch st h
    by_cases hg : analysisGate text
    · have h10 : 10 < (jsTrim text).length := by
        simpa [analysisGate] using hg
      omega
    · cases fetch <;> simp [debounceStep, hg] at h

/-- C2 (witness): the spec's concrete scenario 2 — the input "Hi" is rejected
with no request, no analysis, and no profile change. -/
theorem c2_short_input_rejected_witness :
    ((jsTrim "Hi").length < 10) ∧
      (debounceStep "Hi" (.err "never sent") initialUIState).requested = false ∧
      (debounceStep "Hi" (.err "never sent") initialUIState).ui.analysis = none ∧
      (debounceStep "Hi" (.err "never sent") initialUIState).ui.userProfile
        = initialUIState.userProfile :=
  ⟨by decide, c2_short_input_rejected.1 "Hi" (.err "never sent") initialUIState (by decide)⟩

/-- C4: the analysis step never leaves the caller without a result — on any
failure of the backend call for an accepted text, the stored result has
complexity score exactly 0.5 and confidence exactly 0. -/
theorem c4_scorer_worst_case (text err : String) (st : UIState)
    (h : 10 < (jsTrim text).length) :
    ∃ r, (debounceStep text (.err err) st).ui.analysis = some r ∧
      r.complexity_score = 0.5 ∧ r.confidence = 0 := by
  refine ⟨fallbackAnalysis text err, ?_, rfl, ?_⟩
  · simp [debounceStep, analysisGate, h]
  · show (0.0 : ℚ) = 0
    norm_num

/-- C4 (witness): the worst-case result at a concrete accepted input. -/
theorem c4_scorer_worst_case_witness :
    10 < (jsTrim "Monitor for side effects").length ∧
      ∃ r, (debounceStep "Monitor for side effects" (.err "timeout")
              initialUIState).ui.analysis = some r ∧
        r.complexity_score = 0.5 ∧ r.confidence = 0 :=
  ⟨by decide, c4_scorer_worst_case "Monitor for side effects" "timeout"
    initialUIState (by decide)⟩

/-- C5 (counterexample): at the boundary score 0.3 the code's banding disagrees
with the claim's inclusive-low, exclusive-high banding — the code classifies
0.3 into the low band while inclusive-low banding would put it in the moderate
band. -/
theorem c5_banding_counterexample :
    complexityColor 0.3 ≠ complexityColorSpecInclusiveLow 0.3 := by
  have h1 : complexityColor 0.3 = "#27ae60" := by
    unfold complexityColor
    norm_num
  have h2 : complexityColorSpecInclusiveLow 0.3 = "#f39c12" := by
    unfold complexityColorSpecInclusiveLow
    norm_num
  rw [h1, h2]
  decide

/-- C5 (amended): boundary scores classify into the lower band, because the
bands are exclusive-low, inclusive-high: low is `[0, 0.3]`, moderate is
`(0.3, 0.6]`, high is `(0.6, 1]`; in particular 0.3 gets the low badge color
and 0.6 the moderate one, deterministically. -/
theorem c5_bands_lower_at_boundaries :
    complexityColor 0.3 = "#27ae60" ∧ complexityColor 0.6 = "#f39c12" ∧
    ∀ x : ℚ,
      (complexityColor x = "#27ae60" ↔ x ≤ 0.3) ∧
      (complexityColor x = "#f39c12" ↔ (0.3 < x ∧ x ≤ 0.6)) ∧
      (complexityColor x = "#e74c3c" ↔ 0.6 < x) := by
  refine ⟨by unfold complexityColor; norm_num, by unfold complexityColor; norm_num, ?_⟩
  intro x
  by_cases h1 : x > 0.6
  · have e : complexityColor x = "#e74c3c" := by
      unfold complexityColor
      rw [if_pos h1]
    rw [e]
    refine ⟨iff_of_false (by decide) (by intro hc; linarith),
      iff_of_false (by decide) (by rintro ⟨h3, h4⟩; linarith),
      iff_of_true rfl h1⟩
  · by_cases h2 : x > 0.3
    · have e : complexityColor x = "#f39c12" := by
        unfold complexityColor
        rw [if_neg h1, if_pos h2]
      rw [e]
      refine ⟨iff_of_false (by decide) (by intro hc; linarith),
        iff_of_true rfl ⟨h2, by linarith⟩,
        iff_of_false (by decide) (by intro hc; linarith)⟩
    · have e : complexityColor x = "#27ae60" := by
        unfold complexityColor
        rw [if_neg h1, if_neg h2]
      rw [e]
      refine ⟨iff_of_true rfl (by linarith),
        iff_of_false (by decide) (by rintro ⟨h3, h4⟩; linarith),
        iff_of_false (by decide) (by intro hc; linarith)⟩

/-- C7: the intervention planner is a pure deterministic function of its two
inputs — identical complexity results and identical profiles always yield
identical presentation directives. -/
theorem c7_planner_deterministic (c1 c2 : ComplexityResult) (p1 p2 : UserProfile)
    (hc : c1 = c2) (hp : p1 = p2) : plan c1 p1 = plan c2 p2 := by
  rw [hc, hp]

/-- C7 (witness): determinism at a concrete complexity result and the default
profile. -/
theorem c7_planner_deterministic_witness :
    plan sampleComplexity defaultProfile = plan sampleComplexity defaultProfile :=
  c7_planner_deterministic sampleComplexity sampleComplexity defaultProfile defaultProfile rfl rfl

/-- C10: the simplified-version panel is rendered exactly when an analysis is
present whose `simplified_text` is non-empty and differs from the current input
text; in particular a simplification that returns the input unchanged shows no
panel. -/
theorem c10_simplified_panel_iff (oa : Option AnalysisResult) (text : String) :
    showSimplifiedPanel oa text = true ↔
      ∃ a, oa = some a ∧ a.simplified_text ≠ "" ∧ a.simplified_text ≠ text := by
  cases oa with
  | none => simp [showSimplifiedPanel]
  | some a => simp [showSimplifiedPanel]

/-- C10 (witness): the render condition evaluated at a concrete analysis whose
simplified text equals the input — the panel is hidden. -/
theorem c10_simplified_panel_iff_witness :
    showSimplifiedPanel (some (fallbackAnalysis "Take 2 tablets daily" "e")) "Take 2 tablets daily"
        = true ↔
      ∃ a, some (fallbackAnalysis "Take 2 tablets daily" "e") = some a ∧
        a.simplified_text ≠ "" ∧ a.simplified_text ≠ "Take 2 tablets daily" :=
  c10_simplified_panel_iff (some (fallbackAnalysis "Take 2 tablets daily" "e")) "Take 2 tablets daily"

/-- One speech operation keeps the utterance queue at length at most one. -/
theorem speechStep_queue_length (st : SpeechState) (op : SpeechOp)
    (h : st.queue.length ≤ 1) : (speechStep st op).queue.length ≤ 1 := by
  cases op with
  | speak u => simp [speechStep, speakText, synthSpeak, synthCancel]
  | stop => simp [speechStep, stopReading, synthCancel]
  | pause =>
    by_cases hq : st.queue.isEmpty <;> simpa [speechStep, pauseReading, hq] using h
  | resume =>
    by_cases hp : st.paused <;> simpa [speechStep, resumeReading, hp] using h

/-- Any run of speech operations keeps the queue at length at most one. -/
theorem runSpeech_queue_length :
    ∀ (ops : List SpeechOp) (st : SpeechState),
      st.queue.length ≤ 1 → (runSpeech st ops).queue.length ≤ 1 := by
  intro ops
  induction ops with
  | nil => intro st h; exact h
  | cons op rest ih =>
    intro st h
    exact ih (speechStep st op) (speechStep_queue_length st op h)

/-- C8: at most one utterance is ever active — `speakText` cancels all speech
before enqueueing, so afterwards the queue holds exactly the new utterance;
`stopReading` empties the queue; and along any sequence of speech operations
from the initial state the queue never holds two utterances. -/
theorem c8_single_utterance :
    (∀ (u : String) (st : SpeechState), (speechStep st (.speak u)).queue = [u]) ∧
    (∀ st : SpeechState, (speechStep st .stop).queue = []) ∧
    (∀ ops : List SpeechOp, (runSpeech initialSpeechState ops).queue.length ≤ 1) := by
  refine ⟨fun u st => rfl, fun st => rfl, fun ops => ?_⟩
  exact runSpeech_queue_length ops initialSpeechState (by decide)

/-- C8 (witness): a concrete run — two reads then a pause — leaves at most one
utterance queued. -/
theorem c8_single_utterance_witness :
    (runSpeech initialSpeechState
      [SpeechOp.speak "first", SpeechOp.speak "second", SpeechOp.pause]).queue.length ≤ 1 :=
  c8_single_utterance.2.2 [SpeechOp.speak "first", SpeechOp.speak "second", SpeechOp.pause]

/-- C9: applying an analysis result touches only the body font size and line
height — background and text color are preserved whenever the adaptations do
not request "high_contrast", and are set to the two fixed colors when they do;
and when the input falls to or below the minimum length the debounced effect
resets all four style properties to their defaults. -/
theorem c9_style_frame :
    (∀ (r : AnalysisResult) (st : BodyStyle),
        (∀ va, r.visual_adaptations = some va → va.color_scheme ≠ "high_contrast") →
        (applyVisualAdaptations r st).backgroundColor = st.backgroundColor ∧
        (applyVisualAdaptations r st).color = st.color) ∧
    (∀ (r : AnalysisResult) (st : BodyStyle) (va : VisualAdaptations),
        r.visual_adaptations = some va →
        (applyVisualAdaptations r st).fontSize = .str va.font_size ∧
        (applyVisualAdaptations r st).lineHeight = .num va.line_height ∧
        (va.color_scheme = "high_contrast" →
          (applyVisualAdaptations r st).backgroundColor = .str "#f8f8f8" ∧
          (applyVisualAdaptations r st).color = .str "#333")) ∧
    (∀ (text : String) (fetch : FetchOutcome) (st : UIState),
        (jsTrim text).length ≤ 10 →
        (debounceStep text fetch st).ui.body = emptyBodyStyle) := by
  refine ⟨?_, ?_, ?_⟩
  · intro r st h
    cases hva : r.visual_adaptations with
    | none => simp [applyVisualAdaptations, hva]
    | some va =>
      have hcs : va.color_scheme ≠ "high_contrast" := h va hva
      simp [applyVisualAdaptations, hva, hcs]
  · intro r st va hva
    by_cases hcs : va.color_scheme = "high_contrast"
    · simp [applyVisualAdaptations, hva, hcs]
    · simp [applyVisualAdaptations, hva, hcs]
  · intro text fetch st h
    have hg : analysisGate text = false := by
      simp only [analysisGate, gt_iff_lt, decide_eq_false_iff_not, not_lt]
      omega
    simp [debounceStep, hg]

/-- C9 (witness): frame preservation at a default-scheme result over a fully
populated style, the high-contrast assignments, and the reset on a short
input. -/
theorem c9_style_frame_witness :
    ((applyVisualAdaptations (sampleResult sampleAdaptationsDefault) sampleBody).backgroundColor
        = sampleBody.backgroundColor ∧
      (applyVisualAdaptations (sampleResult sampleAdaptationsDefault) sampleBody).color
        = sampleBody.color) ∧
    ((applyVisualAdaptations (sampleResult sampleAdaptationsHC) sampleBody).fontSize
        = .str sampleAdaptationsHC.font_size ∧
      (applyVisualAdaptations (sampleResult sampleAdaptationsHC) sampleBody).lineHeight
        = .num sampleAdaptationsHC.line_height ∧
      (sampleAdaptationsHC.color_scheme = "high_contrast" →
        (applyVisualAdaptations (sampleResult sampleAdaptationsHC) sampleBody).backgroundColor
            = .str "#f8f8f8" ∧
        (applyVisualAdaptations (sampleResult sampleAdaptationsHC) sampleBody).color
            = .str "#333")) ∧
    (debounceStep "Hi" (.err "never sent") initialUIState).ui.body = emptyBodyStyle :=
  ⟨c9_style_frame.1 (sampleResult sampleAdaptationsDefault) sampleBody
      (by intro va hva; injection hva with hva; subst hva; decide),
    c9_style_frame.2.1 (sampleResult sampleAdaptationsHC) sampleBody sampleAdaptationsHC rfl,
    c9_style_frame.2.2 "Hi" (.err "never sent") initialUIState (by decide)⟩

/-- Reading back the profile just committed for a user yields exactly the
updated profile. -/
theorem storeGet_update_self (st : ProfileStore) (uid : String) (o : AnalysisOutcome) :
    storeGet (storeUpdate st uid o) uid = updateProfile (storeGet st uid) o := by
  simp [storeUpdate, storeGet]

/-- Committing one user's analysis leaves every other user's profile as it
was. -/
theorem storeGet_update_other (st : ProfileStore) (uid uid2 : String)
    (o : AnalysisOutcome) (h : uid2 ≠ uid) :
    storeGet (storeUpdate st uid o) uid2 = storeGet st uid2 := by
  simp [storeUpdate, storeGet, h]

/-- A user with no binding reads as the default profile. -/
theorem storeGet_of_not_has (st : ProfileStore) (uid : String)
    (h : storeHas st uid = false) : storeGet st uid = defaultProfile := by
  induction st with
  | nil => rfl
  | cons kv rest ih =>
    obtain ⟨k, p⟩ := kv
    by_cases hk : uid = k
    · simp [storeHas, hk] at h
    · rw [storeGet, if_neg hk]
      exact ih (by simpa [storeHas, hk] using h)

/-- Creating a default profile on first access changes no profile read. -/
theorem storeGet_ensure (st : ProfileStore) (uid uid2 : String) :
    storeGet (storeEnsure st uid) uid2 = storeGet st uid2 := by
  unfold storeEnsure
  by_cases hh : storeHas st uid
  · simp [hh]
  · rw [if_neg (by simpa using hh)]
    by_cases hk : uid2 = uid
    · subst hk
      rw [storeGet, if_pos rfl]
      exact (storeGet_of_not_has st uid2 (by simpa using hh)).symm
    · rw [storeGet, if_neg hk]

/-- Running store operations adds to a user's texts-read counter exactly the
number of updates committed for that user. -/
theorem runStore_texts_read :
    ∀ (ops : List StoreOp) (st : ProfileStore) (uid : String),
      (storeGet (runStore st ops) uid).texts_read
        = (storeGet st uid).texts_read + countUpdates uid ops := by
  intro ops
  induction ops with
  | nil => intro st uid; simp [runStore, countUpdates]
  | cons op rest ih =>
    intro st uid
    cases op with
    | get u =>
      have hstep : runStore st (StoreOp.get u :: rest) = runStore (storeEnsure st u) rest := rfl
      rw [hstep, ih (storeEnsure st u) uid, storeGet_ensure]
      simp [countUpdates]
    | update u o =>
      have hstep : runStore st (StoreOp.update u o :: rest)
          = runStore (storeUpdate st u o) rest := rfl
      rw [hstep, ih (storeUpdate st u o) uid]
      by_cases hu : uid = u
      · subst hu
        rw [storeGet_update_self]
        show (storeGet st uid).texts_read + 1 + countUpdates uid rest = _
        rw [countUpdates, if_pos rfl]
        omega
      · rw [storeGet_update_other st u uid o hu, countUpdates, if_neg (fun hc => hu hc.symm)]
        omega

/-- C6: for every user id, across every sequence of ProfileStore operations,
the texts-read counter grows by exactly one per committed analysis for that id
and is never decremented. -/
theorem c6_texts_read_monotonic (st : ProfileStore) (uid : String) (ops : List StoreOp) :
    (storeGet (runStore st ops) uid).texts_read
        = (storeGet st uid).texts_read + countUpdates uid ops ∧
      (storeGet st uid).texts_read ≤ (storeGet (runStore st ops) uid).texts_read := by
  refine ⟨runStore_texts_read ops st uid, ?_⟩
  rw [runStore_texts_read ops st uid]
  exact Nat.le_add_right _ _

/-- C6 (witness): a concrete run with one read and two committed analyses for
the same user counts exactly two. -/
theorem c6_texts_read_monotonic_witness :
    (storeGet (runStore [] [StoreOp.get "u1",
        StoreOp.update "u1" { terms := ["nausea"], comprehension_signal := 0.7 },
        StoreOp.update "u1" { terms := [], comprehension_signal := 0.9 }]) "u1").texts_read
      = (storeGet ([] : ProfileStore) "u1").texts_read
        + countUpdates "u1" [StoreOp.get "u1",
            StoreOp.update "u1" { terms := ["nausea"], comprehension_signal := 0.7 },
            StoreOp.update "u1" { terms := [], comprehension_signal := 0.9 }] ∧
    (storeGet ([] : ProfileStore) "u1").texts_read
      ≤ (storeGet (runStore [] [StoreOp.get "u1",
          StoreOp.update "u1" { terms := ["nausea"], comprehension_signal := 0.7 },
          StoreOp.update "u1" { terms := [], comprehension_signal := 0.9 }]) "u1").texts_read :=
  c6_texts_read_monotonic [] "u1" [StoreOp.get "u1",
    StoreOp.update "u1" { terms := ["nausea"], comprehension_signal := 0.7 },
    StoreOp.update "u1" { terms := [], comprehension_signal := 0.9 }]

/-- A member of a sentence list occurs verbatim in the rejoined text. -/
theorem occursIn_joinSentences :
    ∀ (l : List String) (a : String), a ∈ l → occursIn a (joinSentences l) := by
  intro l
  induction l with
  | nil => intro a h; exact absurd h (List.not_mem_nil a)
  | cons x rest ih =>
    intro a h
    cases rest with
    | nil =>
      have hax : a = x := by simpa using h
      subst hax
      exact ⟨[], [], by simp [joinSentences]⟩
    | cons y rs =>
      have hjoin : joinSentences (x :: y :: rs) = x ++ "." ++ joinSentences (y :: rs) := rfl
      rcases List.mem_cons.mp h with hax | h2
      · subst hax
        refine ⟨[], '.' :: (joinSentences (y :: rs)).data, ?_⟩
        rw [hjoin, String.data_append, String.data_append]
        simp
      · obtain ⟨s, t, hst⟩ := ih a h2
        refine ⟨x.data ++ '.' :: s, t, ?_⟩
        rw [hjoin, String.data_append, String.data_append, hst]
        simp

/-- C3: every SafetyHighlight span extracted from a text occurs contiguously
and verbatim in the rule-based simplified output — the simplification step
never alters, deletes, or reorders the text inside the span, so its dosage
numbers and frequency units appear unchanged. -/
theorem c3_safety_spans_preserved (text hl : String)
    (hmem : hl ∈ safetyHighlightsOf text) : occursIn hl (ruleBasedSimplify text) := by
  have h1 : hl ∈ sentencesOf text ∧ isSafetyCritical hl = true := by
    simpa [safetyHighlightsOf] using List.mem_filter.mp hmem
  have h2 : simplifySentence hl = hl := by
    simp [simplifySentence, h1.2]
  have h3 : simplifySentence hl ∈ (sentencesOf text).map simplifySentence :=
    List.mem_map_of_mem simplifySentence h1.1
  rw [h2] at h3
  exact occursIn_joinSentences _ hl h3

/-- C3 (witness): the dosage sentence of the spec's concrete scenario 1 is a
SafetyHighlight of itself and survives simplification verbatim. -/
theorem c3_safety_spans_preserved_witness :
    ("Take 2 tablets daily" ∈ safetyHighlightsOf "Take 2 tablets daily") ∧
      occursIn "Take 2 tablets daily" (ruleBasedSimplify "Take 2 tablets daily") :=
  ⟨by decide, c3_safety_spans_preserved "Take 2 tablets daily" "Take 2 tablets daily" (by decide)⟩

end MMR
